import Mathlib

/-!
Shallow embedding of TMDA's local mail delivery module
(`src/tmda/TMDA/Deliver.py`) and proofs about it.

Python strings are modelled as Lean `String` (sequences of characters;
the source handles byte strings, which coincide on the inputs of
interest).  Python sequence slicing `s[:n]` is modelled by `pyTake`,
`str.strip()` by `pyStrip`, `str.strip('&')` by `pyStripChar`.
Fallible code returns `Except`.
-/

/-- Python `s[:n]`: the first `n` characters of `s` (all of `s` when it is
shorter). -/
def pyTake (s : String) (n : Nat) : String :=
  ⟨s.data.take n⟩

/-- Characters treated as whitespace by Python's `str.strip()` (ASCII
range). -/
def pyIsSpace (c : Char) : Bool :=
  c = ' ' || c = '\t' || c = '\n' || c = '\r' || c = '\x0b' || c = '\x0c'

/-- Remove the characters satisfying `p` from both ends of a string, as
Python's `str.strip` family does. -/
def pyStripWhile (p : Char → Bool) (s : String) : String :=
  ⟨((s.data.dropWhile p).reverse.dropWhile p).reverse⟩

/-- Python `s.strip()`: whitespace removed from both ends. -/
def pyStrip (s : String) : String :=
  pyStripWhile pyIsSpace s

/-- Python `s.strip(c)` for a one-character argument: every copy of `c`
removed from both ends. -/
def pyStripChar (c : Char) (s : String) : String :=
  pyStripWhile (fun d => d = c) s

/-- The delivery types produced by `_get_instructions` and dispatched on
by `deliver` (the keys of the dispatch dictionary, lines 126-132 of the
source). -/
inductive BoxType
  | program
  | forward
  | mmdf
  | mbox
  | maildir
  | filter
deriving DecidableEq, Repr

/-- Result of `_get_instructions`: either a `(type, destination)` pair or
the `(None, None)` "unrecognized" answer. -/
inductive Parsed
  | instr (boxtype : BoxType) (dest : String)
  | unrecognized
deriving DecidableEq, Repr

/-- The Python exceptions relevant to instruction handling: the
`IndexError` raised by `option[0]` on an empty string, and
`Errors.DeliveryError`. -/
inductive PyExc
  | indexError
  | deliveryError (msg : String)
deriving DecidableEq, Repr

/-- Embedding of `Deliver._get_instructions` (source lines 66-97).  The
external call `os.path.expanduser` is abstracted as the parameter
`expand`.  Python's `str.isalnum` is modelled by `Char.isAlphanum`
(they agree on the ASCII range of the instruction grammar).  `option[0]`
raises `IndexError` on the empty string, hence the `Except`. -/
def _get_instructions (expand : String → String) (option : String) :
    Except PyExc Parsed :=
  if option = "" then Except.error PyExc.indexError
  else
    -- first = option[0]; last = option[-1]
    if option.front = '|' then
      -- a program line begins with a vertical bar
      Except.ok (Parsed.instr BoxType.program (pyStrip (option.drop 1)))
    else if option.front = '&' ∨ option.front.isAlphanum = true then
      -- a forward line begins with an ampersand or an alphanumeric
      Except.ok (Parsed.instr BoxType.forward (pyStrip (pyStripChar '&' option)))
    else if option.front = ':' then
      -- an mmdf line begins with a colon
      Except.ok (Parsed.instr BoxType.mmdf (expand (pyStrip (option.drop 1))))
    else if (option.front = '/' ∨ option.front = '~') ∧ option.back ≠ '/' then
      -- an mbox line begins with a slash or tilde, not ending with a slash
      Except.ok (Parsed.instr BoxType.mbox (expand option))
    else if (option.front = '/' ∨ option.front = '~') ∧ option.back = '/' then
      -- a "maildir" line begins with a slash or tilde and ends with a
      -- slash, but the source returns the mbox type for it as well
      Except.ok (Parsed.instr BoxType.mbox (expand option))
    else if option = "_filter_" then
      Except.ok (Parsed.instr BoxType.filter "stdout")
    else
      Except.ok Parsed.unrecognized

/-- Embedding of `Deliver.get_instructions` (source lines 100-108): as
`_get_instructions`, but an unrecognized instruction raises
`Errors.DeliveryError`. -/
def get_instructions (expand : String → String) (option : String) :
    Except PyExc (BoxType × String) :=
  match _get_instructions expand option with
  | Except.error e => Except.error e
  | Except.ok Parsed.unrecognized =>
      Except.error (PyExc.deliveryError
        ("Delivery instruction \"" ++ option ++ "\" is not recognized!"))
  | Except.ok (Parsed.instr t d) => Except.ok (t, d)

/-- Modelled from the spec: the `parse` contract of §4.1 exactly as the
spec words it, for comparison with `_get_instructions`.  The rules are
evaluated against the first and last characters of the *trimmed* string,
and rule 2's destination strips one leading ampersand and surrounding
whitespace. -/
def spec_parse_trimmed (expand : String → String) (option : String) : Parsed :=
  let s := pyStrip option
  if s = "" then Parsed.unrecognized
  else if s.front = '|' then
    Parsed.instr BoxType.program (pyStrip (s.drop 1))
  else if s.front = '&' ∨ s.front.isAlphanum = true then
    Parsed.instr BoxType.forward (pyStrip (if s.front = '&' then s.drop 1 else s))
  else if s.front = ':' then
    Parsed.instr BoxType.mmdf (expand (pyStrip (s.drop 1)))
  else if (s.front = '/' ∨ s.front = '~') ∧ s.back ≠ '/' then
    Parsed.instr BoxType.mbox (expand s)
  else if (s.front = '/' ∨ s.front = '~') ∧ s.back = '/' then
    Parsed.instr BoxType.mbox (expand s)
  else if s = "_filter_" then
    Parsed.instr BoxType.filter "stdout"
  else Parsed.unrecognized

/-- The parsing contract of §4.1 as amended to match the code: the rules
are evaluated against the first and last characters of the raw
(untrimmed) string — so surrounding whitespace can change which rule
fires — and rule 2's destination strips every leading and trailing
ampersand before trimming whitespace. -/
def spec_parse_raw (expand : String → String) (option : String) : Parsed :=
  if option = "" then Parsed.unrecognized
  else if option.front = '|' then
    Parsed.instr BoxType.program (pyStrip (option.drop 1))
  else if option.front = '&' ∨ option.front.isAlphanum = true then
    Parsed.instr BoxType.forward (pyStrip (pyStripChar '&' option))
  else if option.front = ':' then
    Parsed.instr BoxType.mmdf (expand (pyStrip (option.drop 1)))
  else if (option.front = '/' ∨ option.front = '~') ∧ option.back ≠ '/' then
    Parsed.instr BoxType.mbox (expand option)
  else if (option.front = '/' ∨ option.front = '~') ∧ option.back = '/' then
    Parsed.instr BoxType.mbox (expand option)
  else if option = "_filter_" then
    Parsed.instr BoxType.filter "stdout"
  else Parsed.unrecognized

/-- Modelled from the spec: the Forward destination as the claim words
it, "the input string with a leading `&` and surrounding whitespace
removed (and nothing else removed)". -/
def spec_forward_dest (s : String) : String :=
  pyStrip (if s.front = '&' then s.drop 1 else s)

/-- Embedding of `escape_from` (source line 134): mangle `From ` lines in
the body exactly for the two mailbox-file formats. -/
def escape_from (boxtype : BoxType) : Bool :=
  decide (boxtype = BoxType.mmdf ∨ boxtype = BoxType.mbox)

/-- Embedding of `add_from_` (source line 135): prepend the Unix `From `
envelope line for program, mmdf and mbox deliveries. -/
def add_from_ (boxtype : BoxType) : Bool :=
  decide (boxtype = BoxType.program ∨ boxtype = BoxType.mmdf ∨
          boxtype = BoxType.mbox)

/-- Status of a destination path for the precondition checks.  For a
symbolic link, `targetExists` says whether the link's target exists; for
any other path it says whether the path itself exists. -/
structure PathStatus where
  isLink : Bool
  targetExists : Bool
deriving DecidableEq, Repr

/-- Model of `os.path.exists`: it follows symbolic links, so a dangling
symlink does not "exist". -/
def os_path_exists (p : PathStatus) : Bool := p.targetExists

/-- Model of `os.path.islink`. -/
def os_path_islink (p : PathStatus) : Bool := p.isLink

/-- Outcome of the destination checks at the top of `Deliver.deliver`. -/
inductive Precheck
  | ok
  | destMissing
  | symlinkRejected
deriving DecidableEq, Repr

/-- Embedding of the destination checks in `Deliver.deliver` (source
lines 115-124): the existence check runs first (for mmdf, mbox and
maildir), then the symlink refusal (for mmdf and mbox only). -/
def deliver_precheck (boxtype : BoxType) (dest : PathStatus) : Precheck :=
  if (boxtype = BoxType.mmdf ∨ boxtype = BoxType.mbox ∨
      boxtype = BoxType.maildir) ∧ os_path_exists dest = false then
    Precheck.destMissing
  else if (boxtype = BoxType.mmdf ∨ boxtype = BoxType.mbox) ∧
      os_path_islink dest = true then
    Precheck.symlinkRejected
  else Precheck.ok

/-- Helper for `firstLine`: the characters of a list up to and including
the first newline. -/
def firstLineList : List Char → List Char
  | [] => []
  | c :: cs => if c = '\n' then [c] else c :: firstLineList cs

/-- Model of `fp.readline()` at the start of a file: the first line
including its newline, or the whole content if it has no newline, or
`""` on an empty file. -/
def firstLine (s : String) : String := ⟨firstLineList s.data⟩

/-- Embedding of the `message[-1] != '\n'` fix-up shared by the mbox and
mmdf writers (the source raises `IndexError` on an empty message; the
theorems below therefore assume the message is non-empty where this
function is involved). -/
def fixNewline (message : String) : String :=
  if message.back ≠ '\n' then message ++ "\n" else message

/-- Injected I/O faults for one mbox/mmdf append run.  All fault points
lie after `orig_length` has been recorded (faults in `open`/`readline`
happen before anything is written and are outside the claims below).  A
write fault `some k` means the write raised `IOError` after `k` of its
bytes reached the file (Python leaves the amount unspecified).  `wHead`
and `wTail` are the mmdf marker writes and are unused by the mbox run.
`truncate` makes the rollback `fp.truncate(orig_length)` itself raise
(the handler swallows that). -/
structure AppendFaults where
  wHead : Option Nat := none
  wMsg : Option Nat := none
  wBlank : Option Nat := none
  wTail : Option Nat := none
  flushFault : Bool := false
  fsyncFault : Bool := false
  unlockFault : Bool := false
  closeFault : Bool := false
  utimeFault : Bool := false
  truncateFault : Bool := false
deriving DecidableEq, Repr

/-- A run with no injected faults. -/
def noFaults : AppendFaults := {}

/-- Result of one mbox/mmdf append run. -/
inductive AppendResult
  | delivered
  | formatMismatch
  | writeFailure
deriving DecidableEq, Repr

/-- Embedding of the `except IOError` handler of `__deliver_mbox` /
`__deliver_mmdf` (source lines 250-259 and 193-202): if the file is
still open and `orig_length` is known (always true at the modelled fault
points), truncate back to `orig_length`; errors from the rollback itself
are swallowed, leaving the partial content in place.  After `fp.close()`
the guard `not fp.closed` is false and nothing is truncated. -/
def appendRollback (orig : Nat) (content : String) (f : AppendFaults)
    (closed : Bool) : String :=
  if closed = false ∧ f.truncateFault = false then pyTake content orig
  else content

/-- Embedding of `Deliver.__deliver_mbox` (source lines 206-261) over a
file content and a fault schedule.  Returns the content of the mbox file
after the call together with the call's result.  Locking is process
state with no effect on the file bytes and is not modelled. -/
def __deliver_mbox (message mbox : String) (f : AppendFaults) :
    String × AppendResult :=
  if firstLine mbox ≠ "" ∧ pyTake (firstLine mbox) 5 ≠ "From " then
    -- not an mbox file; unlock, close, raise DeliveryError
    (mbox, AppendResult.formatMismatch)
  else
    -- seek to end; orig_length = fp.tell()
    let orig := mbox.length
    let msg := fixNewline message
    match f.wMsg with
    | some k => (appendRollback orig (mbox ++ pyTake msg k) f false,
                 AppendResult.writeFailure)
    | none =>
      match f.wBlank with
      | some k => (appendRollback orig (mbox ++ msg ++ pyTake "\n" k) f false,
                   AppendResult.writeFailure)
      | none =>
        if f.flushFault then
          (appendRollback orig (mbox ++ msg ++ "\n") f false,
           AppendResult.writeFailure)
        else if f.fsyncFault then
          (appendRollback orig (mbox ++ msg ++ "\n") f false,
           AppendResult.writeFailure)
        else if f.unlockFault then
          (appendRollback orig (mbox ++ msg ++ "\n") f false,
           AppendResult.writeFailure)
        else if f.closeFault then
          (appendRollback orig (mbox ++ msg ++ "\n") f true,
           AppendResult.writeFailure)
        else if f.utimeFault then
          -- os.utime runs after fp.close(), so fp.closed is true here
          (appendRollback orig (mbox ++ msg ++ "\n") f true,
           AppendResult.writeFailure)
        else (mbox ++ msg ++ "\n", AppendResult.delivered)

/-- The mmdf message framing marker, `"\1\1\1\1\n"`. -/
def mmdfMagic : String := "\x01\x01\x01\x01\n"

/-- Embedding of `Deliver.__deliver_mmdf` (source lines 151-204): like
`__deliver_mbox` but the first line must start with `mmdfMagic`, and the
message is bracketed by marker lines. -/
def __deliver_mmdf (message mmdf : String) (f : AppendFaults) :
    String × AppendResult :=
  if firstLine mmdf ≠ "" ∧ pyTake (firstLine mmdf) 5 ≠ mmdfMagic then
    (mmdf, AppendResult.formatMismatch)
  else
    let orig := mmdf.length
    match f.wHead with
    | some k => (appendRollback orig (mmdf ++ pyTake mmdfMagic k) f false,
                 AppendResult.writeFailure)
    | none =>
      let msg := fixNewline message
      match f.wMsg with
      | some k => (appendRollback orig (mmdf ++ mmdfMagic ++ pyTake msg k) f false,
                   AppendResult.writeFailure)
      | none =>
        match f.wBlank with
        | some k =>
            (appendRollback orig (mmdf ++ mmdfMagic ++ msg ++ pyTake "\n" k) f false,
             AppendResult.writeFailure)
        | none =>
          match f.wTail with
          | some k =>
              (appendRollback orig
                (mmdf ++ mmdfMagic ++ msg ++ "\n" ++ pyTake mmdfMagic k) f false,
               AppendResult.writeFailure)
          | none =>
            if f.flushFault then
              (appendRollback orig (mmdf ++ mmdfMagic ++ msg ++ "\n" ++ mmdfMagic)
                 f false, AppendResult.writeFailure)
            else if f.fsyncFault then
              (appendRollback orig (mmdf ++ mmdfMagic ++ msg ++ "\n" ++ mmdfMagic)
                 f false, AppendResult.writeFailure)
            else if f.unlockFault then
              (appendRollback orig (mmdf ++ mmdfMagic ++ msg ++ "\n" ++ mmdfMagic)
                 f false, AppendResult.writeFailure)
            else if f.closeFault then
              (appendRollback orig (mmdf ++ mmdfMagic ++ msg ++ "\n" ++ mmdfMagic)
                 f true, AppendResult.writeFailure)
            else if f.utimeFault then
              (appendRollback orig (mmdf ++ mmdfMagic ++ msg ++ "\n" ++ mmdfMagic)
                 f true, AppendResult.writeFailure)
            else (mmdf ++ mmdfMagic ++ msg ++ "\n" ++ mmdfMagic,
                  AppendResult.delivered)

/-- Environment and injected faults for one maildir delivery
(`__deliver_maildir`, source lines 263-365).  `dirsOk` says the three
`tmp`/`cur`/`new` subdirectories exist; `tmpCollision` and
`newCollision` say the computed unique names already exist; `openFault`
makes the `open` of the temporary file fail (no file created);
`writeFault` makes the write/flush/fsync/chmod sequence fail after the
file was created; `linkFault` makes `os.link` fail; `unlinkFault` makes
every `os.unlink` of the temporary path fail. -/
structure MdEnv where
  dirsOk : Bool := true
  tmpCollision : Bool := false
  openFault : Bool := false
  writeFault : Bool := false
  newCollision : Bool := false
  linkFault : Bool := false
  unlinkFault : Bool := false
deriving DecidableEq, Repr

/-- Result of one maildir delivery run. -/
inductive MdResult
  | delivered
  | notAMaildir
  | tmpCollide
  | newCollide
  | writeFailure
  | linkFailure
deriving DecidableEq, Repr

/-- Observable state after one maildir delivery run: its result, whether
the 24-hour SIGALRM guard is still armed when the call returns or
raises, and whether the temporary file and the `new/` file exist
afterwards (counting only files created by this run). -/
structure MdOutcome where
  result : MdResult
  alarmArmed : Bool
  tmpFile : Bool
  newFile : Bool
deriving DecidableEq, Repr

/-- Embedding of `Deliver.__deliver_maildir` (source lines 263-365).
The alarm is armed at entry (line 293).  The `raise` statements for the
not-a-maildir check (line 301), the tmp-name collision (line 315) and
the new-name collision (line 348) do not call `signal.alarm(0)`; the
write-failure handler (line 337), the link/unlink-failure handler (line
355) and the success path (line 364) do.  The write-failure handler does
not remove the temporary file; the link/unlink-failure handler
re-attempts `os.unlink(fname_tmp)` and swallows its error.  A `chown`
failure is swallowed (lines 333-335) and has no observable effect
here. -/
def __deliver_maildir (e : MdEnv) : MdOutcome :=
  if e.dirsOk = false then
    { result := MdResult.notAMaildir, alarmArmed := true,
      tmpFile := false, newFile := false }
  else if e.tmpCollision then
    { result := MdResult.tmpCollide, alarmArmed := true,
      tmpFile := false, newFile := false }
  else if e.openFault then
    { result := MdResult.writeFailure, alarmArmed := false,
      tmpFile := false, newFile := false }
  else if e.writeFault then
    { result := MdResult.writeFailure, alarmArmed := false,
      tmpFile := true, newFile := false }
  else if e.newCollision then
    { result := MdResult.newCollide, alarmArmed := true,
      tmpFile := true, newFile := false }
  else if e.linkFault then
    { result := MdResult.linkFailure, alarmArmed := false,
      tmpFile := e.unlinkFault, newFile := false }
  else if e.unlinkFault then
    -- os.link succeeded, os.unlink raised: the same except OSError
    -- handler fires, re-attempts the unlink, and raises DeliveryError
    { result := MdResult.linkFailure, alarmArmed := false,
      tmpFile := true, newFile := true }
  else
    { result := MdResult.delivered, alarmArmed := false,
      tmpFile := false, newFile := true }

theorem pyTake_append (s t : String) : pyTake (s ++ t) s.length = s := by
  apply String.ext
  show ((s ++ t).data.take s.length) = s.data
  rw [String.data_append]
  exact List.take_left s.data t.data

theorem firstLine_ne_empty {s : String} (h : s ≠ "") : firstLine s ≠ "" := by
  cases s with
  | mk a =>
    cases a with
    | nil => exact absurd rfl h
    | cons c cs =>
      intro hc
      have hdata : firstLineList (c :: cs) = [] := congrArg String.data hc
      by_cases hnl : c = '\n' <;> simp [firstLineList, hnl] at hdata

example : _get_instructions id "|/usr/bin/procmail" =
    Except.ok (Parsed.instr BoxType.program "/usr/bin/procmail") := rfl

example : _get_instructions id "bob@example.com" =
    Except.ok (Parsed.instr BoxType.forward "bob@example.com") := rfl

example : _get_instructions id "/home/alice/Maildir/" =
    Except.ok (Parsed.instr BoxType.mbox "/home/alice/Maildir/") := rfl

example : _get_instructions id "_filter_" =
    Except.ok (Parsed.instr BoxType.filter "stdout") := rfl

example : _get_instructions id " |x" = Except.ok Parsed.unrecognized := rfl

example : _get_instructions id "&bob&" =
    Except.ok (Parsed.instr BoxType.forward "bob") := rfl

/-- C3, counterexample: the claim says the parsing rules are evaluated
against the first and last characters of the *trimmed* string, so that
surrounding whitespace cannot affect which rule fires.  On `" |x"` the
code inspects the raw first character `' '`, matches no rule and returns
unrecognized, while §4.1 applied to the trimmed string `"|x"` dictates
`(Program, "x")`. -/
theorem claim_C3_counterexample :
    _get_instructions id " |x" = Except.ok Parsed.unrecognized ∧
    spec_parse_trimmed id " |x" = Parsed.instr BoxType.program "x" ∧
    Parsed.unrecognized ≠ Parsed.instr BoxType.program "x" :=
  ⟨rfl, rfl, by decide⟩

/-- C3, amended: for every non-empty instruction string,
`_get_instructions` evaluates the rules of §4.1 in the stated precedence
order against the first and last characters of the *raw* string (so
surrounding whitespace can change which rule fires), with rule 2's
destination stripping every leading and trailing ampersand before
trimming whitespace, and returns Unrecognized for every string matching
no rule. -/
theorem claim_C3_amended (expand : String → String) (option : String)
    (h : option ≠ "") :
    _get_instructions expand option = Except.ok (spec_parse_raw expand option) := by
  unfold _get_instructions spec_parse_raw
  rw [if_neg h, if_neg h]
  simp only [apply_ite (Except.ok (ε := PyExc))]

theorem claim_C3_amended_witness :
    (" |x" : String) ≠ "" ∧
    _get_instructions id " |x" = Except.ok (spec_parse_raw id " |x") :=
  ⟨by decide, claim_C3_amended id " |x" (by decide)⟩

/-- C6: an instruction whose first character is `/` or `~` and whose
last character is `/` parses to the mbox-append type with the
home-expanded string as destination, exactly as in the no-trailing-slash
rule, never to a distinct maildir type. -/
theorem claim_C6 (expand : String → String) (s : String) (h0 : s ≠ "")
    (h1 : s.front = '/' ∨ s.front = '~') (h2 : s.back = '/') :
    _get_instructions expand s = Except.ok (Parsed.instr BoxType.mbox (expand s)) := by
  unfold _get_instructions
  rw [if_neg h0]
  rcases h1 with h | h <;> rw [h, h2] <;> rfl

theorem claim_C6_witness :
    ("/home/alice/Maildir/" : String) ≠ "" ∧
    ("/home/alice/Maildir/" : String).front = '/' ∧
    ("/home/alice/Maildir/" : String).back = '/' ∧
    _get_instructions id "/home/alice/Maildir/" =
      Except.ok (Parsed.instr BoxType.mbox "/home/alice/Maildir/") :=
  ⟨by decide, by decide, by decide,
   claim_C6 id "/home/alice/Maildir/" (by decide) (Or.inl (by decide)) (by decide)⟩

/-- C8, counterexample: on `"&bob&"` the code's `strip('&')` also
removes the *trailing* ampersand, returning destination `"bob"`, while
the claim's destination (one leading `&` plus surrounding whitespace
removed) is `"bob&"`. -/
theorem claim_C8_counterexample :
    _get_instructions id "&bob&" = Except.ok (Parsed.instr BoxType.forward "bob") ∧
    spec_forward_dest "&bob&" = "bob&" ∧
    ("bob" : String) ≠ "bob&" :=
  ⟨rfl, rfl, by decide⟩

/-- C8, amended: for every instruction string whose first character is
`&` or alphanumeric, parse returns the Forward type, and the destination
equals the input with *all* leading and trailing ampersands removed and
then surrounding whitespace removed. -/
theorem claim_C8_amended (expand : String → String) (s : String) (h0 : s ≠ "")
    (h1 : s.front = '&' ∨ s.front.isAlphanum = true) :
    _get_instructions expand s =
      Except.ok (Parsed.instr BoxType.forward (pyStrip (pyStripChar '&' s))) := by
  unfold _get_instructions
  rw [if_neg h0]
  have hbar : ¬s.front = '|' := by
    rcases h1 with h | h
    · rw [h]; decide
    · intro hc
      rw [hc] at h
      exact absurd h (by decide)
  rw [if_neg hbar, if_pos h1]

theorem claim_C8_amended_witness :
    ("& bob &" : String) ≠ "" ∧
    ("& bob &" : String).front = '&' ∧
    _get_instructions id "& bob &" =
      Except.ok (Parsed.instr BoxType.forward "bob") :=
  ⟨by decide, by decide,
   (claim_C8_amended id "& bob &" (by decide) (Or.inl (by decide))).trans rfl⟩

/-- C9: on the empty instruction string, `option[0]` raises `IndexError`
before any rule is tried, so neither `_get_instructions` nor
`get_instructions` produces the unrecognized answer or the documented
`DeliveryError`; the call is undefined (an uncaught `IndexError`)
instead. -/
theorem claim_C9 (expand : String → String) :
    _get_instructions expand "" = Except.error PyExc.indexError ∧
    get_instructions expand "" = Except.error PyExc.indexError :=
  ⟨rfl, rfl⟩

/-- C7: the engine serializes with body-line From-escaping exactly for
the mbox and mmdf types, with envelope From_-line prefixing exactly for
the program, mbox and mmdf types, and with neither for forward and
filter (and for the unreachable maildir entry). -/
theorem claim_C7 :
    (escape_from BoxType.mbox = true ∧ escape_from BoxType.mmdf = true ∧
     escape_from BoxType.program = false ∧ escape_from BoxType.forward = false ∧
     escape_from BoxType.filter = false ∧ escape_from BoxType.maildir = false) ∧
    (add_from_ BoxType.program = true ∧ add_from_ BoxType.mmdf = true ∧
     add_from_ BoxType.mbox = true ∧ add_from_ BoxType.forward = false ∧
     add_from_ BoxType.filter = false ∧ add_from_ BoxType.maildir = false) := by
  decide

/-- C10: for the mbox and mmdf types the existence check runs before the
symlink check and follows symbolic links, so a symlink to a nonexistent
target fails with the destination-missing error, and the
symlink-rejected error is raised only for symlinks whose target
exists. -/
theorem claim_C10 (b : BoxType) (p : PathStatus)
    (hb : b = BoxType.mmdf ∨ b = BoxType.mbox) :
    (p.isLink = true → p.targetExists = false →
       deliver_precheck b p = Precheck.destMissing) ∧
    (deliver_precheck b p = Precheck.symlinkRejected →
       p.isLink = true ∧ p.targetExists = true) := by
  rcases hb with h | h <;> subst h <;> obtain ⟨l, t⟩ := p <;>
    cases l <;> cases t <;> decide

theorem claim_C10_witness :
    (BoxType.mbox = BoxType.mmdf ∨ BoxType.mbox = BoxType.mbox) ∧
    deliver_precheck BoxType.mbox ⟨true, false⟩ = Precheck.destMissing :=
  ⟨Or.inr rfl,
   (claim_C10 BoxType.mbox ⟨true, false⟩ (Or.inr rfl)).1 rfl rfl⟩

/-- C5, counterexample: on a destination that is not a maildir the code
raises at line 301 without calling `signal.alarm(0)`, so the 24-hour
alarm stays armed on that exit path, contradicting "cancelled on every
exit path". -/
theorem claim_C5_counterexample :
    (__deliver_maildir { dirsOk := false }).result = MdResult.notAMaildir ∧
    (__deliver_maildir { dirsOk := false }).alarmArmed = true :=
  ⟨rfl, rfl⟩

/-- C5, amended: the alarm is cancelled exactly on the success,
write-failure and link/unlink-failure exit paths; it stays armed on the
not-a-maildir, temporary-name-collision and final-name-collision exit
paths. -/
theorem claim_C5_amended (e : MdEnv) :
    (__deliver_maildir e).alarmArmed = true ↔
      ((__deliver_maildir e).result = MdResult.notAMaildir ∨
       (__deliver_maildir e).result = MdResult.tmpCollide ∨
       (__deliver_maildir e).result = MdResult.newCollide) := by
  obtain ⟨d, tc, o, w, n, l, u⟩ := e
  cases d <;> cases tc <;> cases o <;> cases w <;> cases n <;> cases l <;>
    cases u <;> decide

/-- C2, counterexample: when the hard link succeeds and only the cleanup
unlink fails, the shared `except OSError` handler fires and the call
raises the rename-failure delivery error even though the message file
exists at its final path — contradicting "a failure of the cleanup
unlink does not cause the delivery call to report failure". -/
theorem claim_C2_counterexample :
    (__deliver_maildir { unlinkFault := true }).newFile = true ∧
    (__deliver_maildir { unlinkFault := true }).result = MdResult.linkFailure ∧
    MdResult.linkFailure ≠ MdResult.delivered :=
  ⟨rfl, rfl, by decide⟩

/-- C2, amended: once the hard link succeeds, a failure of the cleanup
unlink of the temporary path makes the call report the same
rename-failure delivery error as a link failure — the unlink is
re-attempted in the handler (best-effort) — even though the message file
remains at its final path; the alarm is cancelled on this path. -/
theorem claim_C2_amended (e : MdEnv) (h1 : e.dirsOk = true)
    (h2 : e.tmpCollision = false) (h3 : e.openFault = false)
    (h4 : e.writeFault = false) (h5 : e.newCollision = false)
    (h6 : e.linkFault = false) (h7 : e.unlinkFault = true) :
    __deliver_maildir e =
      { result := MdResult.linkFailure, alarmArmed := false,
        tmpFile := true, newFile := true } := by
  simp [__deliver_maildir, h1, h2, h3, h4, h5, h6, h7]

theorem claim_C2_amended_witness :
    (MdEnv.unlinkFault { unlinkFault := true } = true) ∧
    __deliver_maildir { unlinkFault := true } =
      { result := MdResult.linkFailure, alarmArmed := false,
        tmpFile := true, newFile := true } :=
  ⟨rfl, claim_C2_amended { unlinkFault := true } rfl rfl rfl rfl rfl rfl rfl⟩

/-- C4: an append to an empty file proceeds past the format check, and
an append to a non-empty file whose first line does not begin with the
format magic (`"From "` for mbox, four 0x01 bytes plus newline for mmdf)
fails with the format-mismatch delivery error and leaves the file's
contents unchanged byte-for-byte, regardless of any injected I/O
faults. -/
theorem claim_C4 :
    (∀ (message : String) (f : AppendFaults), message ≠ "" →
       (__deliver_mbox message "" f).2 ≠ AppendResult.formatMismatch) ∧
    (∀ (message mbox : String) (f : AppendFaults), mbox ≠ "" →
       pyTake (firstLine mbox) 5 ≠ "From " →
       __deliver_mbox message mbox f = (mbox, AppendResult.formatMismatch)) ∧
    (∀ (message : String) (f : AppendFaults), message ≠ "" →
       (__deliver_mmdf message "" f).2 ≠ AppendResult.formatMismatch) ∧
    (∀ (message mmdf : String) (f : AppendFaults), mmdf ≠ "" →
       pyTake (firstLine mmdf) 5 ≠ mmdfMagic →
       __deliver_mmdf message mmdf f = (mmdf, AppendResult.formatMismatch)) := by
  refine ⟨?_, ?_, ?_, ?_⟩
  · intro message f _
    rcases f with ⟨wh, wm, wb, wt, fl, fs, un, cl, ut, tr⟩
    have hm : ¬(firstLine "" ≠ "" ∧ pyTake (firstLine "") 5 ≠ "From ") :=
      fun hc => hc.1 rfl
    cases wm <;> cases wb <;> cases fl <;> cases fs <;> cases un <;>
      cases cl <;> cases ut <;> simp [__deliver_mbox, hm]
  · intro message mbox f h1 h2
    unfold __deliver_mbox
    rw [if_pos ⟨firstLine_ne_empty h1, h2⟩]
  · intro message f _
    rcases f with ⟨wh, wm, wb, wt, fl, fs, un, cl, ut, tr⟩
    have hm : ¬(firstLine "" ≠ "" ∧ pyTake (firstLine "") 5 ≠ mmdfMagic) :=
      fun hc => hc.1 rfl
    cases wh <;> cases wm <;> cases wb <;> cases wt <;> cases fl <;>
      cases fs <;> cases un <;> cases cl <;> cases ut <;>
      simp [__deliver_mmdf, hm]
  · intro message mmdf f h1 h2
    unfold __deliver_mmdf
    rw [if_pos ⟨firstLine_ne_empty h1, h2⟩]

theorem claim_C4_witness :
    ("m" : String) ≠ "" ∧
    pyTake (firstLine "Not an mbox\n") 5 ≠ "From " ∧
    (__deliver_mbox "m" "" noFaults).2 ≠ AppendResult.formatMismatch ∧
    __deliver_mbox "m" "Not an mbox\n" noFaults =
      ("Not an mbox\n", AppendResult.formatMismatch) ∧
    __deliver_mmdf "m" "Not an mmdf\n" noFaults =
      ("Not an mmdf\n", AppendResult.formatMismatch) :=
  ⟨by decide, by decide,
   claim_C4.1 "m" noFaults (by decide),
   claim_C4.2.1 "m" "Not an mbox\n" noFaults (by decide) (by decide),
   claim_C4.2.2.2 "m" "Not an mmdf\n" noFaults (by decide) (by decide)⟩

/-- C1, counterexample.  Mbox half: an `IOError` raised by `os.utime`
(which runs after `fp.close()`) is caught by the same `except IOError`
handler, but `fp.closed` is true so nothing is truncated — the call
fails with an I/O error raised after `orig_length` was recorded, yet the
file keeps the appended message instead of its pre-call length.  Maildir
half: the write-failure handler (source lines 336-339) raises without
removing the temporary file, so the temporary file is not removed at
all, not even best-effort. -/
theorem claim_C1_counterexample :
    ((__deliver_mbox "m" "From a\n" { utimeFault := true }).2 =
       AppendResult.writeFailure ∧
     (__deliver_mbox "m" "From a\n" { utimeFault := true }).1 = "From a\nm\n\n" ∧
     ("From a\nm\n\n" : String) ≠ "From a\n") ∧
    ((__deliver_maildir { writeFault := true }).result = MdResult.writeFailure ∧
     (__deliver_maildir { writeFault := true }).tmpFile = true) :=
  ⟨⟨rfl, rfl, by decide⟩, rfl, rfl⟩

/-- C1, amended: an mbox or mmdf append that fails with an I/O error
raised while the file is still open (any fault up to and including the
unlock) and whose rollback truncate succeeds leaves the file at exactly
its pre-call length before the error is surfaced; an I/O error raised
after `fp.close()` (during `os.utime`) instead leaves the appended
message in place.  A maildir delivery that fails with an I/O error while
writing the temporary file raises the delivery error with the temporary
file left in place (it is not removed, though the alarm is
cancelled). -/
theorem claim_C1_amended :
    (∀ (message mbox : String) (f : AppendFaults),
       f.closeFault = false → f.utimeFault = false → f.truncateFault = false →
       (__deliver_mbox message mbox f).2 = AppendResult.writeFailure →
       (__deliver_mbox message mbox f).1 = mbox) ∧
    (∀ (message mmdf : String) (f : AppendFaults),
       f.closeFault = false → f.utimeFault = false → f.truncateFault = false →
       (__deliver_mmdf message mmdf f).2 = AppendResult.writeFailure →
       (__deliver_mmdf message mmdf f).1 = mmdf) ∧
    (∀ e : MdEnv, e.dirsOk = true → e.tmpCollision = false →
       e.openFault = false → e.writeFault = true →
       (__deliver_maildir e).result = MdResult.writeFailure ∧
       (__deliver_maildir e).tmpFile = true ∧
       (__deliver_maildir e).alarmArmed = false) := by
  refine ⟨?_, ?_, ?_⟩
  · intro message mbox f hc hu ht
    rcases f with ⟨wh, wm, wb, wt, fl, fs, un, cl, ut, tr⟩
    replace hc : cl = false := hc
    replace hu : ut = false := hu
    replace ht : tr = false := ht
    subst hc hu ht
    by_cases hm : (firstLine mbox ≠ "" ∧ pyTake (firstLine mbox) 5 ≠ "From ")
    · simp [__deliver_mbox, hm]
    · cases wm <;> cases wb <;> cases fl <;> cases fs <;> cases un <;>
        simp [__deliver_mbox, hm, appendRollback, String.append_assoc,
          pyTake_append]
  · intro message mmdf f hc hu ht
    rcases f with ⟨wh, wm, wb, wt, fl, fs, un, cl, ut, tr⟩
    replace hc : cl = false := hc
    replace hu : ut = false := hu
    replace ht : tr = false := ht
    subst hc hu ht
    by_cases hm : (firstLine mmdf ≠ "" ∧ pyTake (firstLine mmdf) 5 ≠ mmdfMagic)
    · simp [__deliver_mmdf, hm]
    · cases wh <;> cases wm <;> cases wb <;> cases wt <;> cases fl <;>
        cases fs <;> cases un <;>
        simp [__deliver_mmdf, hm, appendRollback, String.append_assoc,
          pyTake_append]
  · intro e h1 h2 h3 h4
    refine ⟨?_, ?_, ?_⟩ <;> simp [__deliver_maildir, h1, h2, h3, h4]

theorem claim_C1_amended_witness :
    (AppendFaults.closeFault { wMsg := some 1 } = false) ∧
    ((__deliver_mbox "m" "From a\n" { wMsg := some 1 }).2 =
       AppendResult.writeFailure) ∧
    (__deliver_mbox "m" "From a\n" { wMsg := some 1 }).1 = "From a\n" ∧
    (__deliver_maildir { writeFault := true }).result = MdResult.writeFailure :=
  ⟨rfl, rfl,
   claim_C1_amended.1 "m" "From a\n" { wMsg := some 1 } rfl rfl rfl rfl,
   (claim_C1_amended.2.2 { writeFault := true } rfl rfl rfl rfl).1⟩
